import Mathlib

/-!
Verification of the hostile pipeline compiler and index provisioning
subsystem (`src/hostile/aligner.py`), as a shallow embedding in Lean 4.

Paths are modelled as strings joined with "/". Filesystem facts (whether an
output file exists, whether the index files exist), the detected platform and
the outcome of running the aligner binary are passed as explicit parameters,
since they are results of external calls in the source. State mutation of the
`Aligner` dataclass is modelled by returning the updated `Aligner` value.
-/

namespace Hostile

/-- Modelled from the spec: `util.fastq_path_to_stem` is not under `src/`;
the spec describes `canonicalStem(path)` as deriving the sample identifier
from an input read filename by taking the extension-stripped basename,
stripping multi-part compression/format suffixes (e.g. `.fastq.gz`). -/
def removeSuffix (s suf : String) : String :=
  if suf.data.isSuffixOf s.data then
    String.mk (s.data.take (s.data.length - suf.data.length))
  else s

/-- Modelled from the spec: basename of a "/"-joined path (the characters
after the last slash). -/
def basename (p : String) : String :=
  String.mk (p.data.foldl (fun acc c => if c == '/' then [] else acc ++ [c]) [])

/-- Modelled from the spec: `canonicalStem` — basename with format and
compression suffixes removed, so `a.fastq.gz`, `a.fastq`, `a.fq.gz` and
`a.fq` all have stem `a`. -/
def fastq_path_to_stem (p : String) : String :=
  removeSuffix (removeSuffix (removeSuffix (basename p) ".gz") ".fastq") ".fq"

/-- One step list for Python `str.replace`: replaces each non-overlapping
occurrence of `pat` left to right. Fuel-based structural recursion; the fuel
is the length of the scanned list, so it never runs out. -/
def replaceCharsAux (pat repl : List Char) : Nat → List Char → List Char
  | _, [] => []
  | 0, l => l
  | fuel + 1, c :: rest =>
    if pat ≠ [] ∧ pat.isPrefixOf (c :: rest) then
      repl ++ replaceCharsAux pat repl fuel (List.drop (pat.length - 1) rest)
    else
      c :: replaceCharsAux pat repl fuel rest

/-- Python `s.replace(pat, repl)` on strings (non-empty pattern). -/
def strReplace (s pat repl : String) : String :=
  String.mk (replaceCharsAux pat.data repl.data s.data.length s.data)

/-- The template-substitution loop of `gen_clean_cmd`/`gen_paired_clean_cmd`:
`for k in cmd_template.keys(): alignment_cmd = alignment_cmd.replace(k, ...)`,
folding over the keys in dict insertion order. -/
def substTemplate (cmd : String) (subs : List (String × String)) : String :=
  subs.foldl (fun acc kv => strReplace acc kv.1 kv.2) cmd

/-- The `Aligner` dataclass of `src/hostile/aligner.py`, with the derived
fields that `__post_init__` computes. -/
structure Aligner where
  name : String
  short_name : String
  bin_path : String
  cdn_base_url : String
  data_dir : String
  cmd : String
  paired_cmd : String
  idx_archive_fn : String := ""
  ref_archive_fn : String := ""
  idx_name : String := ""
  idx_paths : List String := []
  ref_archive_url : String := ""
  idx_archive_url : String := ""
  ref_archive_path : String := ""
  idx_archive_path : String := ""
  idx_path : String := ""
deriving DecidableEq, Repr

/-- `Aligner.__post_init__`: computes the derived URL and path fields
(the `mkdir` side effect has no bearing on the descriptor value). -/
def postInit (a : Aligner) : Aligner :=
  { a with
    ref_archive_url := a.cdn_base_url ++ "/" ++ a.ref_archive_fn,
    idx_archive_url := a.cdn_base_url ++ "/" ++ a.idx_archive_fn,
    ref_archive_path := a.data_dir ++ "/" ++ a.ref_archive_fn,
    idx_archive_path := a.data_dir ++ "/" ++ a.idx_archive_fn,
    idx_path := a.data_dir ++ "/" ++ a.idx_name }

/-- The `if index:` block shared by both compile variants: a supplied custom
index overwrites the descriptor fields `idx_path` and `ref_archive_path`. -/
def apply_custom_index (self : Aligner) (index : Option String) : Aligner :=
  match index with
  | some i => { self with idx_path := i, ref_archive_path := i }
  | none => self

/-- One stage of the compiled streaming pipeline. The source builds the
command text by concatenating the rendered stages in order (the spec calls
the output "the fully substituted command pipeline text (or equivalent stage
list)"); `renderStage` below reproduces each piece of the f-string verbatim. -/
inductive Stage where
  | align : String → Stage
  | countTap : Nat → String → Stage
  | filter : Nat → Stage
  | sortByName : Stage
  | renameSingle : Stage
  | renamePaired : Stage
  | writeSingle : Nat → String → Stage
  | writePaired : Nat → String → String → Stage
deriving DecidableEq, Repr

/-- The awk program of the single-end `rename_cmd` (verbatim source text). -/
def renameSingleAwk : String :=
  " | awk \x27BEGIN \x7b\x7b FS=OFS=\"\\t\"; line_count=0 \x7d\x7d /^@/ \x7b\x7b next \x7d\x7d \x7b\x7b $1=int(line_count+1)\" \"; print $0; line_count++ \x7d\x7d\x27"

/-- The awk program of the paired-end `rename_cmd` (verbatim source text). -/
def renamePairedAwk : String :=
  " | awk \x27BEGIN \x7b\x7b FS=OFS=\"\\t\"; start=0; line_count=1 \x7d\x7d /^@/ \x7b\x7b next \x7d\x7d !start && !/^@/ \x7b\x7b start=1 \x7d\x7d start \x7b\x7b $1=int((line_count+1)/2)\" \"; print $0; line_count++ \x7d\x7d\x27"

/-- The text of each pipeline stage, exactly as the f-strings in
`gen_clean_cmd` and `gen_paired_clean_cmd` produce it. -/
def renderStage : Stage → String
  | Stage.align c => c
  | Stage.countTap mask path =>
      " | tee >(samtools view -F " ++ toString mask ++ " -c - > \x27" ++ path ++ "\x27)"
  | Stage.filter f => " | samtools view -f " ++ toString f ++ " -"
  | Stage.sortByName => " | samtools sort -n -O sam -@ 6 -m 1G"
  | Stage.renameSingle => renameSingleAwk
  | Stage.renamePaired => renamePairedAwk
  | Stage.writeSingle threads path =>
      " | samtools fastq --threads " ++ toString threads ++ " -c 6 -0 \x27" ++ path ++ "\x27"
  | Stage.writePaired threads path1 path2 =>
      " | samtools fastq --threads " ++ toString threads ++ " -c 6 -N -1 \x27" ++ path1 ++ "\x27 -2 \x27" ++ path2 ++ "\x27"

/-- Concatenation of the rendered stages: the full pipeline text. -/
def renderPipeline : List Stage → String
  | [] => ""
  | s :: rest => renderStage s ++ renderPipeline rest

/-- The `cmd_template` dict of `gen_clean_cmd`, in insertion order. -/
def cmd_template (self : Aligner) (fastq aligner_args : String) (threads : Nat) :
    List (String × String) :=
  [("{BIN_PATH}", self.bin_path),
   ("{REF_ARCHIVE_PATH}", self.ref_archive_path),
   ("{INDEX_PATH}", self.idx_path),
   ("{FASTQ}", fastq),
   ("{ALIGNER_ARGS}", aligner_args),
   ("{THREADS}", toString threads)]

/-- The `cmd_template` dict of `gen_paired_clean_cmd`, in insertion order. -/
def paired_cmd_template (self : Aligner) (fastq1 fastq2 aligner_args : String)
    (threads : Nat) : List (String × String) :=
  [("{BIN_PATH}", self.bin_path),
   ("{REF_ARCHIVE_PATH}", self.ref_archive_path),
   ("{INDEX_PATH}", self.idx_path),
   ("{FASTQ1}", fastq1),
   ("{FASTQ2}", fastq2),
   ("{ALIGNER_ARGS}", aligner_args),
   ("{THREADS}", toString threads)]

/-- `Aligner.gen_clean_cmd`. `fastq_out_exists` is the result of the external
`fastq_out_path.exists()` call. The returned `Aligner` is the state of `self`
when the method returns or raises (the `FileExistsError` is `Except.error`,
raised before the `if index:` assignment, so the state is unchanged there). -/
def gen_clean_cmd (self : Aligner) (fastq out_dir : String) (index : Option String)
    (rename reorder : Bool) (aligner_args : String) (threads : Nat) (force : Bool)
    (fastq_out_exists : Bool) : Aligner × Except String (List Stage) :=
  let fastq_stem := fastq_path_to_stem fastq
  let fastq_out_path := out_dir ++ "/" ++ fastq_stem ++ ".clean.fastq.gz"
  let count_before_path := out_dir ++ "/" ++ fastq_stem ++ ".reads_in.txt"
  let count_after_path := out_dir ++ "/" ++ fastq_stem ++ ".reads_out.txt"
  if !force && fastq_out_exists then
    (self, Except.error "Output file already exists. Use --force to overwrite")
  else
    let self := apply_custom_index self index
    let reorder_stages := if reorder then [Stage.sortByName] else []
    let rename_stages := if rename then [Stage.renameSingle] else []
    let alignment_cmd := substTemplate self.cmd (cmd_template self fastq aligner_args threads)
    (self, Except.ok
      ([Stage.align alignment_cmd,
        Stage.countTap 2304 count_before_path,
        Stage.filter 4,
        Stage.countTap 256 count_after_path]
       ++ reorder_stages ++ rename_stages
       ++ [Stage.writeSingle threads fastq_out_path]))

/-- The paired-end reorder policy: under darwin an explicit samtools name-sort
stage, otherwise none (on the non-darwin branch `--reorder` is appended to the
aligner arguments instead, see `paired_aligner_args`). -/
def paired_reorder_stages (reorder : Bool) (platform : String) : List Stage :=
  if reorder then
    (if platform == "darwin" then [Stage.sortByName] else [])
  else []

/-- The paired-end aligner-argument rewrite: on the non-darwin branch of the
reorder policy, `aligner_args += " --reorder"`. -/
def paired_aligner_args (aligner_args : String) (reorder : Bool) (platform : String) :
    String :=
  if reorder && !(platform == "darwin") then aligner_args ++ " --reorder"
  else aligner_args

/-- `Aligner.gen_paired_clean_cmd`. `platform` is the result of the external
`util.get_platform()` call; `out1_exists`/`out2_exists` are the results of the
two output `.exists()` calls. -/
def gen_paired_clean_cmd (self : Aligner) (fastq1 fastq2 out_dir : String)
    (index : Option String) (rename reorder : Bool) (aligner_args : String)
    (threads : Nat) (force : Bool) (platform : String)
    (out1_exists out2_exists : Bool) : Aligner × Except String (List Stage) :=
  let fastq1_stem := fastq_path_to_stem fastq1
  let fastq2_stem := fastq_path_to_stem fastq2
  let fastq1_out_path := out_dir ++ "/" ++ fastq1_stem ++ ".clean_1.fastq.gz"
  let fastq2_out_path := out_dir ++ "/" ++ fastq2_stem ++ ".clean_2.fastq.gz"
  let count_before_path := out_dir ++ "/" ++ fastq1_stem ++ ".reads_in.txt"
  let count_after_path := out_dir ++ "/" ++ fastq1_stem ++ ".reads_out.txt"
  if !force && (out1_exists || out2_exists) then
    (self, Except.error "Output files already exist. Use --force to overwrite")
  else
    let self := apply_custom_index self index
    let reorder_stages := paired_reorder_stages reorder platform
    let aligner_args := paired_aligner_args aligner_args reorder platform
    let rename_stages := if rename then [Stage.renamePaired] else []
    let alignment_cmd :=
      substTemplate self.paired_cmd
        (paired_cmd_template self fastq1 fastq2 aligner_args threads)
    (self, Except.ok
      ([Stage.align alignment_cmd,
        Stage.countTap 2304 count_before_path,
        Stage.filter 12,
        Stage.countTap 256 count_after_path]
       ++ reorder_stages ++ rename_stages
       ++ [Stage.writePaired threads fastq1_out_path fastq2_out_path]))

/-- Externally visible actions of `Aligner.check`. -/
inductive CheckEvent where
  | fetchDefaultIndex : CheckEvent
  | runCmd : String → CheckEvent
deriving DecidableEq, Repr

/-- `Aligner.check`. `idx_paths_all_exist` is the result of
`all(path.exists() for path in self.idx_paths)`, `ref_archive_exists` of
`self.ref_archive_path.exists()`, and `probe_succeeds` tells whether
`util.run(f"{self.bin_path} --version", ...)` ran without a
`CalledProcessError`. Returns the trace of external actions together with
the outcome (the `RuntimeError` re-raised on probe failure). -/
def check (self : Aligner) (using_custom_index : Bool)
    (idx_paths_all_exist ref_archive_exists probe_succeeds : Bool) :
    List CheckEvent × Except String Unit :=
  let fetch_events : List CheckEvent :=
    if !using_custom_index then
      if self.name == "Bowtie2" then
        (if !idx_paths_all_exist then [CheckEvent.fetchDefaultIndex] else [])
      else if self.name == "Minimap2" then
        (if !ref_archive_exists then [CheckEvent.fetchDefaultIndex] else [])
      else []
    else []
  let events := fetch_events ++ [CheckEvent.runCmd (self.bin_path ++ " --version")]
  if probe_succeeds then (events, Except.ok ())
  else (events, Except.error ("Failed to execute " ++ self.bin_path))

/-- Modelled from the spec: the record-retention predicate of
`samtools view -f f` (an external collaborator): a record is retained iff
every bit of the required-flag mask `f` is set in the record's FLAG field
("require bit 4 set", "require bits 4 and 8 both set"). -/
def samRequireFlag (f flag : Nat) : Bool :=
  flag &&& f == f

/-- A header line of the SAM stream: awk pattern `/^@/`. -/
def headerLine (l : String) : Bool :=
  match l.data with
  | c :: _ => c == '@'
  | [] => false

/-- Identifier sequence assigned by the single-end `rename_cmd` awk program
(`renameSingleAwk`): header lines hit `next`; every other line is printed
with identifier `line_count + 1` and then `line_count++`. The initial
`line_count` is 0 (`BEGIN` block). -/
def renameSingleIds : List String → Nat → List Nat
  | [], _ => []
  | l :: ls, line_count =>
    if headerLine l then renameSingleIds ls line_count
    else (line_count + 1) :: renameSingleIds ls (line_count + 1)

/-- Identifier sequence assigned by the paired-end `rename_cmd` awk program
(`renamePairedAwk`): header lines hit `next`; every other line sets `start`
(already 1 from the first record on) and is printed with identifier
`int((line_count + 1) / 2)`, then `line_count++`. The initial `line_count`
is 1 (`BEGIN` block). -/
def renamePairedIds : List String → Nat → List Nat
  | [], _ => []
  | l :: ls, line_count =>
    if headerLine l then renamePairedIds ls line_count
    else ((line_count + 1) / 2) :: renamePairedIds ls (line_count + 1)

/-- Number of non-header records of a stream. -/
def recordCount (ls : List String) : Nat :=
  (ls.filter (fun l => !headerLine l)).length

/-- Selects the filter stages (`samtools view -f`) of a pipeline. -/
def isFilterStage : Stage → Bool
  | Stage.filter _ => true
  | _ => false

/-- Selects the counting tee taps of a pipeline. -/
def isCountTapStage : Stage → Bool
  | Stage.countTap _ _ => true
  | _ => false

/-- Selects the explicit name-sort stages of a pipeline. -/
def isSortStage : Stage → Bool
  | Stage.sortByName => true
  | _ => false

/-- Selects the rename stages of a pipeline. -/
def isRenameStage : Stage → Bool
  | Stage.renameSingle => true
  | Stage.renamePaired => true
  | _ => false

/-- A concrete Minimap2-style descriptor used as a test vector. -/
def mm2 : Aligner := postInit
  { name := "Minimap2", short_name := "mm2", bin_path := "minimap2",
    cdn_base_url := "http://cdn", data_dir := "/data",
    cmd := "{BIN_PATH} -ax sr -t {THREADS} {ALIGNER_ARGS} {REF_ARCHIVE_PATH} {FASTQ}",
    paired_cmd := "{BIN_PATH} -ax sr -t {THREADS} {ALIGNER_ARGS} {REF_ARCHIVE_PATH} {FASTQ1} {FASTQ2}",
    ref_archive_fn := "human.fa.gz", idx_name := "human.idx" }

/-- Stage list of the single-end test vector (rename=false, reorder=false). -/
def singleStages : List Stage :=
  [Stage.align "minimap2 -ax sr -t 4  /data/human.fa.gz /in/sample.fastq.gz",
   Stage.countTap 2304 "/out/sample.reads_in.txt",
   Stage.filter 4,
   Stage.countTap 256 "/out/sample.reads_out.txt",
   Stage.writeSingle 4 "/out/sample.clean.fastq.gz"]

/-- Stage list of the single-end test vector with rename=true. -/
def singleStagesRenamed : List Stage :=
  [Stage.align "minimap2 -ax sr -t 4  /data/human.fa.gz /in/sample.fastq.gz",
   Stage.countTap 2304 "/out/sample.reads_in.txt",
   Stage.filter 4,
   Stage.countTap 256 "/out/sample.reads_out.txt",
   Stage.renameSingle,
   Stage.writeSingle 4 "/out/sample.clean.fastq.gz"]

/-- Stage list of the single-end test vector with reorder=true. -/
def singleStagesSorted : List Stage :=
  [Stage.align "minimap2 -ax sr -t 4  /data/human.fa.gz /in/sample.fastq.gz",
   Stage.countTap 2304 "/out/sample.reads_in.txt",
   Stage.filter 4,
   Stage.countTap 256 "/out/sample.reads_out.txt",
   Stage.sortByName,
   Stage.writeSingle 4 "/out/sample.clean.fastq.gz"]

/-- Stage list of the paired-end test vector (rename=false, reorder=false). -/
def pairedStages : List Stage :=
  [Stage.align "minimap2 -ax sr -t 2  /data/human.fa.gz /in/a.fastq.gz /in/b.fastq.gz",
   Stage.countTap 2304 "/out/a.reads_in.txt",
   Stage.filter 12,
   Stage.countTap 256 "/out/a.reads_out.txt",
   Stage.writePaired 2 "/out/a.clean_1.fastq.gz" "/out/b.clean_2.fastq.gz"]

/-- Stage list of the paired-end test vector with reorder=true on darwin. -/
def pairedStagesDarwin : List Stage :=
  [Stage.align "minimap2 -ax sr -t 2  /data/human.fa.gz /in/a.fastq.gz /in/b.fastq.gz",
   Stage.countTap 2304 "/out/a.reads_in.txt",
   Stage.filter 12,
   Stage.countTap 256 "/out/a.reads_out.txt",
   Stage.sortByName,
   Stage.writePaired 2 "/out/a.clean_1.fastq.gz" "/out/b.clean_2.fastq.gz"]

/-- Stage list of the paired-end test vector with reorder=true on linux. -/
def pairedStagesLinux : List Stage :=
  [Stage.align "minimap2 -ax sr -t 2  --reorder /data/human.fa.gz /in/a.fastq.gz /in/b.fastq.gz",
   Stage.countTap 2304 "/out/a.reads_in.txt",
   Stage.filter 12,
   Stage.countTap 256 "/out/a.reads_out.txt",
   Stage.writePaired 2 "/out/a.clean_1.fastq.gz" "/out/b.clean_2.fastq.gz"]

end Hostile

namespace Hostile

theorem renameSingleIds_eq (ls : List String) : ∀ c,
    renameSingleIds ls c = List.range' (c + 1) (recordCount ls) := by
  induction ls with
  | nil => intro c; simp [renameSingleIds, recordCount]
  | cons l ls ih =>
    intro c
    by_cases h : headerLine l = true
    · simp [renameSingleIds, recordCount, h, List.filter, ih c]
    · simp only [Bool.not_eq_true] at h
      simp [renameSingleIds, recordCount, h, List.filter, ih (c + 1), List.range'_succ]

theorem renamePairedIds_eq (ls : List String) : ∀ c,
    renamePairedIds ls c =
      (List.range' (c + 1) (recordCount ls)).map (fun k => k / 2) := by
  induction ls with
  | nil => intro c; simp [renamePairedIds, recordCount]
  | cons l ls ih =>
    intro c
    by_cases h : headerLine l = true
    · simp [renamePairedIds, recordCount, h, List.filter, ih c]
    · simp only [Bool.not_eq_true] at h
      simp [renamePairedIds, recordCount, h, List.filter, List.range'_succ]
      rw [ih (c + 1)]
      simp [recordCount]

/-- Claim C7: with force=false and an existing single-end output the compile call
fails with the already-exists error and yields no pipeline; same for the
paired variant when either output exists; with force=true no existence check
causes failure. -/
theorem C7_already_exists_guard :
    (∀ self fastq out_dir index rename reorder aligner_args threads ex,
      ex = true →
      (gen_clean_cmd self fastq out_dir index rename reorder aligner_args
        threads false ex).2 =
        Except.error "Output file already exists. Use --force to overwrite")
    ∧ (∀ self f1 f2 out_dir index rename reorder aligner_args threads platform e1 e2,
      e1 = true ∨ e2 = true →
      (gen_paired_clean_cmd self f1 f2 out_dir index rename reorder aligner_args
        threads false platform e1 e2).2 =
        Except.error "Output files already exist. Use --force to overwrite")
    ∧ (∀ self fastq out_dir index rename reorder aligner_args threads ex,
      ∃ st, (gen_clean_cmd self fastq out_dir index rename reorder aligner_args
        threads true ex).2 = Except.ok st)
    ∧ (∀ self f1 f2 out_dir index rename reorder aligner_args threads platform e1 e2,
      ∃ st, (gen_paired_clean_cmd self f1 f2 out_dir index rename reorder aligner_args
        threads true platform e1 e2).2 = Except.ok st) := by
  refine ⟨?_, ?_, ?_, ?_⟩
  · intro self fastq out_dir index rename reorder aligner_args threads ex hex
    subst hex
    simp [gen_clean_cmd]
  · intro self f1 f2 out_dir index rename reorder aligner_args threads platform e1 e2 h
    rcases h with h | h <;> subst h <;> simp [gen_paired_clean_cmd]
  · intro self fastq out_dir index rename reorder aligner_args threads ex
    exact ⟨_, rfl⟩
  · intro self f1 f2 out_dir index rename reorder aligner_args threads platform e1 e2
    exact ⟨_, rfl⟩

/-- Claim C9: when the already-exists error fires (force=false, output present),
the returned descriptor state is exactly the input descriptor, even when a
custom index path was supplied: the guard precedes the `if index:`
assignment in both variants. -/
theorem C9_failed_call_preserves_descriptor :
    (∀ self fastq out_dir i rename reorder aligner_args threads ex,
      ex = true →
      (gen_clean_cmd self fastq out_dir (some i) rename reorder aligner_args
        threads false ex).1 = self ∧
      (gen_clean_cmd self fastq out_dir (some i) rename reorder aligner_args
        threads false ex).1.idx_path = self.idx_path ∧
      (gen_clean_cmd self fastq out_dir (some i) rename reorder aligner_args
        threads false ex).1.ref_archive_path = self.ref_archive_path)
    ∧ (∀ self f1 f2 out_dir i rename reorder aligner_args threads platform e1 e2,
      e1 = true ∨ e2 = true →
      (gen_paired_clean_cmd self f1 f2 out_dir (some i) rename reorder aligner_args
        threads false platform e1 e2).1 = self) := by
  constructor
  · intro self fastq out_dir i rename reorder aligner_args threads ex hex
    subst hex
    refine ⟨?_, ?_, ?_⟩ <;> simp [gen_clean_cmd]
  · intro self f1 f2 out_dir i rename reorder aligner_args threads platform e1 e2 h
    rcases h with h | h <;> subst h <;> simp [gen_paired_clean_cmd]

/-- Claim C8: `check` with a custom index performs no default-index verification or
fetch; in every case its last external action is the version probe of the
backend binary, and a failing probe raises a hard error while a succeeding
probe returns normally. -/
theorem C8_check_probe :
    ∀ self ucix e1 e2 p,
      (ucix = true →
        (check self ucix e1 e2 p).1 =
          [CheckEvent.runCmd (self.bin_path ++ " --version")]) ∧
      (check self ucix e1 e2 p).1.getLast? =
        some (CheckEvent.runCmd (self.bin_path ++ " --version")) ∧
      (p = false →
        (check self ucix e1 e2 p).2 =
          Except.error ("Failed to execute " ++ self.bin_path)) ∧
      (p = true → (check self ucix e1 e2 p).2 = Except.ok ()) := by
  intro self ucix e1 e2 p
  refine ⟨?_, ?_, ?_, ?_⟩
  · intro h
    subst h
    cases p <;> simp [check]
  · cases p <;> simp [check, List.getLast?_concat]
  · intro h
    subst h
    simp [check]
  · intro h
    subst h
    simp [check]

end Hostile

namespace Hostile

theorem gen_clean_cmd_ok (self : Aligner) (fastq out_dir : String)
    (index : Option String) (rename reorder : Bool) (aligner_args : String)
    (threads : Nat) (force : Bool) (ex : Bool) (st : List Stage)
    (h : (gen_clean_cmd self fastq out_dir index rename reorder aligner_args
      threads force ex).2 = Except.ok st) :
    st = Stage.align (substTemplate (apply_custom_index self index).cmd
          (cmd_template (apply_custom_index self index) fastq aligner_args threads)) ::
      Stage.countTap 2304 (out_dir ++ "/" ++ fastq_path_to_stem fastq ++ ".reads_in.txt") ::
      Stage.filter 4 ::
      Stage.countTap 256 (out_dir ++ "/" ++ fastq_path_to_stem fastq ++ ".reads_out.txt") ::
      ((if reorder then [Stage.sortByName] else []) ++
       ((if rename then [Stage.renameSingle] else []) ++
        [Stage.writeSingle threads
          (out_dir ++ "/" ++ fastq_path_to_stem fastq ++ ".clean.fastq.gz")])) := by
  simp only [gen_clean_cmd] at h
  split at h
  · simp at h
  · simp at h
    exact h.symm

theorem gen_paired_clean_cmd_ok (self : Aligner) (f1 f2 out_dir : String)
    (index : Option String) (rename reorder : Bool) (aligner_args : String)
    (threads : Nat) (force : Bool) (platform : String) (e1 e2 : Bool)
    (st : List Stage)
    (h : (gen_paired_clean_cmd self f1 f2 out_dir index rename reorder aligner_args
      threads force platform e1 e2).2 = Except.ok st) :
    st = Stage.align (substTemplate (apply_custom_index self index).paired_cmd
          (paired_cmd_template (apply_custom_index self index) f1 f2
            (paired_aligner_args aligner_args reorder platform) threads)) ::
      Stage.countTap 2304 (out_dir ++ "/" ++ fastq_path_to_stem f1 ++ ".reads_in.txt") ::
      Stage.filter 12 ::
      Stage.countTap 256 (out_dir ++ "/" ++ fastq_path_to_stem f1 ++ ".reads_out.txt") ::
      (paired_reorder_stages reorder platform ++
       ((if rename then [Stage.renamePaired] else []) ++
        [Stage.writePaired threads
          (out_dir ++ "/" ++ fastq_path_to_stem f1 ++ ".clean_1.fastq.gz")
          (out_dir ++ "/" ++ fastq_path_to_stem f2 ++ ".clean_2.fastq.gz")])) := by
  simp only [gen_paired_clean_cmd] at h
  split at h
  · simp at h
  · simp at h
    exact h.symm

theorem renderPipeline_cons3 (a b f : Stage) (rest : List Stage) :
    ∃ p s, renderPipeline (a :: b :: f :: rest) = p ++ renderStage f ++ s := by
  refine ⟨renderStage a ++ renderStage b, renderPipeline rest, ?_⟩
  simp [renderPipeline, String.append_assoc]

/-- Claim C1: every successful single-end compile emits exactly one filter stage,
the require-flag-4 one, and every successful paired-end compile exactly one,
the require-flag-12 one; the rendered command text contains the corresponding
`samtools view -f` invocation; and the require-flag predicate retains a
record iff its unmapped bit (bit 2, value 4) is set, resp. iff its unmapped
and mate-unmapped bits (bits 2 and 3, values 4 and 8) are both set. -/
theorem C1_filter_predicate :
    (∀ self fastq out_dir index rename reorder aligner_args threads force ex st,
      (gen_clean_cmd self fastq out_dir index rename reorder aligner_args
        threads force ex).2 = Except.ok st →
      st.filter isFilterStage = [Stage.filter 4] ∧
      ∃ p s, renderPipeline st = p ++ renderStage (Stage.filter 4) ++ s)
    ∧ (∀ self f1 f2 out_dir index rename reorder aligner_args threads force
        platform e1 e2 st,
      (gen_paired_clean_cmd self f1 f2 out_dir index rename reorder aligner_args
        threads force platform e1 e2).2 = Except.ok st →
      st.filter isFilterStage = [Stage.filter 12] ∧
      ∃ p s, renderPipeline st = p ++ renderStage (Stage.filter 12) ++ s)
    ∧ renderStage (Stage.filter 4) = " | samtools view -f 4 -"
    ∧ renderStage (Stage.filter 12) = " | samtools view -f 12 -"
    ∧ (∀ flag, samRequireFlag 4 flag = true ↔ flag.testBit 2 = true)
    ∧ (∀ flag, samRequireFlag 12 flag = true ↔
        (flag.testBit 2 = true ∧ flag.testBit 3 = true)) := by
  refine ⟨?_, ?_, rfl, rfl, ?_, ?_⟩
  · intro self fastq out_dir index rename reorder aligner_args threads force ex st h
    have hst := gen_clean_cmd_ok self fastq out_dir index rename reorder
      aligner_args threads force ex st h
    subst hst
    constructor
    · cases rename <;> cases reorder <;>
        simp [isFilterStage, List.filter_append, List.filter]
    · exact renderPipeline_cons3 _ _ _ _
  · intro self f1 f2 out_dir index rename reorder aligner_args threads force
      platform e1 e2 st h
    have hst := gen_paired_clean_cmd_ok self f1 f2 out_dir index rename reorder
      aligner_args threads force platform e1 e2 st h
    subst hst
    constructor
    · cases hd : (platform == "darwin") <;> cases rename <;> cases reorder <;>
        simp [isFilterStage, List.filter_append, List.filter,
          paired_reorder_stages, hd]
    · exact renderPipeline_cons3 _ _ _ _
  · intro flag
    constructor
    · intro h
      have h4 : flag &&& 4 = 4 := by
        simpa [samRequireFlag] using h
      have := congrArg (fun n => Nat.testBit n 2) h4
      simp only [Nat.testBit_and] at this
      have e2 : Nat.testBit 4 2 = true := by decide
      rw [e2, Bool.and_true] at this
      exact this
    · intro h
      have : flag &&& 4 = 4 := by
        have d : (4 : Nat) = 2 ^ 2 := by norm_num
        rw [d, Nat.and_two_pow, h]
        decide
      simp [samRequireFlag, this]
  · intro flag
    constructor
    · intro h
      have h12 : flag &&& 12 = 12 := by
        simpa [samRequireFlag] using h
      have t2 := congrArg (fun n => Nat.testBit n 2) h12
      have t3 := congrArg (fun n => Nat.testBit n 3) h12
      simp only [Nat.testBit_and] at t2 t3
      have e2 : Nat.testBit 12 2 = true := by decide
      have e3 : Nat.testBit 12 3 = true := by decide
      rw [e2, Bool.and_true] at t2
      rw [e3, Bool.and_true] at t3
      exact ⟨t2, t3⟩
    · rintro ⟨h2, h3⟩
      have : flag &&& 12 = 12 := by
        have d : (12 : Nat) = 2 ^ 2 ||| 2 ^ 3 := by decide
        rw [d, Nat.and_or_distrib_left, Nat.and_two_pow, Nat.and_two_pow, h2, h3]
        decide
      simp [samRequireFlag, this]

end Hostile

namespace Hostile

/-- Claim C4: in a successful paired-end compile with reorder=true exactly one of
the two reordering mechanisms is used, selected by platform: under darwin the
pipeline holds exactly one explicit name-sort stage and the aligner arguments
are left untouched; under any other platform no sort stage is emitted and
" --reorder" is appended to the aligner arguments (which the align stage
receives through the template substitution). -/
theorem C4_paired_reorder_policy :
    ∀ self f1 f2 out_dir index rename aligner_args threads force platform e1 e2 st,
      (gen_paired_clean_cmd self f1 f2 out_dir index rename true aligner_args
        threads force platform e1 e2).2 = Except.ok st →
      st.head? = some (Stage.align
        (substTemplate (apply_custom_index self index).paired_cmd
          (paired_cmd_template (apply_custom_index self index) f1 f2
            (paired_aligner_args aligner_args true platform) threads))) ∧
      ((platform == "darwin") = true →
        st.filter isSortStage = [Stage.sortByName] ∧
        paired_aligner_args aligner_args true platform = aligner_args) ∧
      ((platform == "darwin") = false →
        st.filter isSortStage = [] ∧
        paired_aligner_args aligner_args true platform =
          aligner_args ++ " --reorder") := by
  intro self f1 f2 out_dir index rename aligner_args threads force platform e1 e2 st h
  have hst := gen_paired_clean_cmd_ok self f1 f2 out_dir index rename true
    aligner_args threads force platform e1 e2 st h
  subst hst
  refine ⟨rfl, ?_, ?_⟩
  · intro hd
    constructor
    · cases rename <;>
        simp [isSortStage, List.filter_append, List.filter,
          paired_reorder_stages, hd]
    · simp [paired_aligner_args, hd]
  · intro hd
    constructor
    · cases rename <;>
        simp [isSortStage, List.filter_append, List.filter,
          paired_reorder_stages, hd]
    · simp [paired_aligner_args, hd]

/-- Claim C10: the single-end reorder policy does not depend on the platform (the
single-end compile consults no platform at all): reorder=true always emits
exactly one explicit name-sort stage, reorder=false none, and in both cases
the aligner arguments reach the align stage unmodified (no native reorder
argument is ever appended). -/
theorem C10_single_reorder_unconditional :
    ∀ self fastq out_dir index rename reorder aligner_args threads force ex st,
      (gen_clean_cmd self fastq out_dir index rename reorder aligner_args
        threads force ex).2 = Except.ok st →
      st.filter isSortStage = (if reorder then [Stage.sortByName] else []) ∧
      ((Stage.sortByName ∈ st) ↔ reorder = true) ∧
      st.head? = some (Stage.align
        (substTemplate (apply_custom_index self index).cmd
          (cmd_template (apply_custom_index self index) fastq aligner_args
            threads))) := by
  intro self fastq out_dir index rename reorder aligner_args threads force ex st h
  have hst := gen_clean_cmd_ok self fastq out_dir index rename reorder
    aligner_args threads force ex st h
  subst hst
  refine ⟨?_, ?_, rfl⟩
  · cases rename <;> cases reorder <;>
      simp [isSortStage, List.filter_append, List.filter]
  · cases rename <;> cases reorder <;> simp

/-- Claim C6: every successful compile, single- or paired-end, has the shape
align, count-before tap (exclude-mask 2304, reads_in file), filter,
count-after tap (exclude-mask 256, reads_out file), followed only by
tap-free stages; the taps render as non-consuming `tee >(...)` branches. -/
theorem C6_count_taps :
    (∀ self fastq out_dir index rename reorder aligner_args threads force ex st,
      (gen_clean_cmd self fastq out_dir index rename reorder aligner_args
        threads force ex).2 = Except.ok st →
      ∃ c rest, st = Stage.align c ::
          Stage.countTap 2304
            (out_dir ++ "/" ++ fastq_path_to_stem fastq ++ ".reads_in.txt") ::
          Stage.filter 4 ::
          Stage.countTap 256
            (out_dir ++ "/" ++ fastq_path_to_stem fastq ++ ".reads_out.txt") ::
          rest ∧
        rest.filter isCountTapStage = [])
    ∧ (∀ self f1 f2 out_dir index rename reorder aligner_args threads force
        platform e1 e2 st,
      (gen_paired_clean_cmd self f1 f2 out_dir index rename reorder aligner_args
        threads force platform e1 e2).2 = Except.ok st →
      ∃ c rest, st = Stage.align c ::
          Stage.countTap 2304
            (out_dir ++ "/" ++ fastq_path_to_stem f1 ++ ".reads_in.txt") ::
          Stage.filter 12 ::
          Stage.countTap 256
            (out_dir ++ "/" ++ fastq_path_to_stem f1 ++ ".reads_out.txt") ::
          rest ∧
        rest.filter isCountTapStage = [])
    ∧ (∀ mask path, renderStage (Stage.countTap mask path) =
        " | tee >(samtools view -F " ++ toString mask ++ " -c - > \x27" ++
          path ++ "\x27)") := by
  refine ⟨?_, ?_, fun mask path => rfl⟩
  · intro self fastq out_dir index rename reorder aligner_args threads force ex st h
    have hst := gen_clean_cmd_ok self fastq out_dir index rename reorder
      aligner_args threads force ex st h
    subst hst
    refine ⟨_, _, rfl, ?_⟩
    cases rename <;> cases reorder <;>
      simp [isCountTapStage, List.filter_append, List.filter]
  · intro self f1 f2 out_dir index rename reorder aligner_args threads force
      platform e1 e2 st h
    have hst := gen_paired_clean_cmd_ok self f1 f2 out_dir index rename reorder
      aligner_args threads force platform e1 e2 st h
    subst hst
    refine ⟨_, _, rfl, ?_⟩
    cases hd : (platform == "darwin") <;> cases rename <;> cases reorder <;>
      simp [isCountTapStage, List.filter_append, List.filter,
        paired_reorder_stages, hd]

end Hostile

namespace Hostile

theorem renamePairedIds_sorted (ls : List String) (c : Nat) :
    List.Sorted (· ≤ ·) (renamePairedIds ls c) := by
  rw [renamePairedIds_eq]
  rw [List.Sorted, List.pairwise_map]
  exact (List.pairwise_lt_range' _ _).imp (fun h => Nat.div_le_div_right h.le)

/-- Claim C5: the rename stage is emitted exactly when rename=true (the single awk
program in the single-end variant, the paired one in the paired-end variant);
the single-end awk program assigns the gapless increasing identifiers
1, 2, 3, … to the non-header records; the paired-end awk program assigns
floor((line_count+1)/2) with the counter starting at 1, so the identifier
sequence is non-decreasing and each value appears exactly twice consecutively;
and header lines never advance either counter. -/
theorem C5_rename_numbering :
    (∀ self fastq out_dir index rename reorder aligner_args threads force ex st,
      (gen_clean_cmd self fastq out_dir index rename reorder aligner_args
        threads force ex).2 = Except.ok st →
      st.filter isRenameStage = (if rename then [Stage.renameSingle] else []))
    ∧ (∀ self f1 f2 out_dir index rename reorder aligner_args threads force
        platform e1 e2 st,
      (gen_paired_clean_cmd self f1 f2 out_dir index rename reorder aligner_args
        threads force platform e1 e2).2 = Except.ok st →
      st.filter isRenameStage = (if rename then [Stage.renamePaired] else []))
    ∧ (∀ ls, renameSingleIds ls 0 = List.range' 1 (recordCount ls))
    ∧ (∀ ls, renamePairedIds ls 1 =
        (List.range' 2 (recordCount ls)).map (fun k => k / 2))
    ∧ (∀ ls, List.Sorted (· ≤ ·) (renamePairedIds ls 1))
    ∧ (∀ ls j, 2 * j + 1 < recordCount ls →
        (renamePairedIds ls 1)[2 * j]? = some (j + 1) ∧
        (renamePairedIds ls 1)[2 * j + 1]? = some (j + 1))
    ∧ (∀ l ls c, headerLine l = true →
        renameSingleIds (l :: ls) c = renameSingleIds ls c ∧
        renamePairedIds (l :: ls) c = renamePairedIds ls c) := by
  refine ⟨?_, ?_, fun ls => renameSingleIds_eq ls 0, fun ls => renamePairedIds_eq ls 1,
    fun ls => renamePairedIds_sorted ls 1, ?_, ?_⟩
  · intro self fastq out_dir index rename reorder aligner_args threads force ex st h
    have hst := gen_clean_cmd_ok self fastq out_dir index rename reorder
      aligner_args threads force ex st h
    subst hst
    cases rename <;> cases reorder <;>
      simp [isRenameStage, List.filter_append, List.filter]
  · intro self f1 f2 out_dir index rename reorder aligner_args threads force
      platform e1 e2 st h
    have hst := gen_paired_clean_cmd_ok self f1 f2 out_dir index rename reorder
      aligner_args threads force platform e1 e2 st h
    subst hst
    cases hd : (platform == "darwin") <;> cases rename <;> cases reorder <;>
      simp [isRenameStage, List.filter_append, List.filter,
        paired_reorder_stages, hd]
  · intro ls j hj
    have h1 : 2 * j < recordCount ls := by omega
    constructor
    · rw [renamePairedIds_eq, List.getElem?_map, List.getElem?_range' _ _ h1]
      simp
      try omega
    · rw [renamePairedIds_eq, List.getElem?_map, List.getElem?_range' _ _ hj]
      simp
      try omega
  · intro l ls c h
    exact ⟨by simp [renameSingleIds, h], by simp [renamePairedIds, h]⟩

/-- Claim C3 (amended): in a successful paired-end compile the first cleaned output
and both count files are named from the first input's canonical stem, while
the second cleaned output is named from the second input's canonical stem. -/
theorem C3_output_naming :
    ∀ self f1 f2 out_dir index rename reorder aligner_args threads force
      platform e1 e2 st,
      (gen_paired_clean_cmd self f1 f2 out_dir index rename reorder aligner_args
        threads force platform e1 e2).2 = Except.ok st →
      Stage.writePaired threads
        (out_dir ++ "/" ++ fastq_path_to_stem f1 ++ ".clean_1.fastq.gz")
        (out_dir ++ "/" ++ fastq_path_to_stem f2 ++ ".clean_2.fastq.gz") ∈ st ∧
      Stage.countTap 2304
        (out_dir ++ "/" ++ fastq_path_to_stem f1 ++ ".reads_in.txt") ∈ st ∧
      Stage.countTap 256
        (out_dir ++ "/" ++ fastq_path_to_stem f1 ++ ".reads_out.txt") ∈ st := by
  intro self f1 f2 out_dir index rename reorder aligner_args threads force
    platform e1 e2 st h
  have hst := gen_paired_clean_cmd_ok self f1 f2 out_dir index rename reorder
    aligner_args threads force platform e1 e2 st h
  subst hst
  refine ⟨?_, ?_, ?_⟩ <;> simp [List.mem_append]

/-- Claim C3 (counterexample): with first input `a.fastq.gz` and second input
`b.fastq.gz` the compiled pipeline writes `b.clean_2.fastq.gz`, not
`a.clean_2.fastq.gz` as the claim states. -/
theorem C3_counterexample :
    (gen_paired_clean_cmd mm2 "/in/a.fastq.gz" "/in/b.fastq.gz" "/out" none
      false false "" 2 true "linux" false false).2 =
      Except.ok
        [Stage.align "minimap2 -ax sr -t 2  /data/human.fa.gz /in/a.fastq.gz /in/b.fastq.gz",
         Stage.countTap 2304 "/out/a.reads_in.txt",
         Stage.filter 12,
         Stage.countTap 256 "/out/a.reads_out.txt",
         Stage.writePaired 2 "/out/a.clean_1.fastq.gz" "/out/b.clean_2.fastq.gz"] ∧
    "/out/b.clean_2.fastq.gz" ≠ "/out/a.clean_2.fastq.gz" := by
  exact ⟨rfl, by decide⟩

/-- Claim C2 (code bug): the compile call with a custom index rewrites the
descriptor fields `idx_path` and `ref_archive_path` in place, so the custom
path survives the call and a subsequent compile call on the returned
descriptor without a custom index still aligns against the custom path. -/
theorem C2_custom_index_leak :
    (gen_clean_cmd mm2 "/in/a.fastq.gz" "/out" (some "/custom/my.fa") false false
      "" 2 true false).1.idx_path = "/custom/my.fa" ∧
    (gen_clean_cmd mm2 "/in/a.fastq.gz" "/out" (some "/custom/my.fa") false false
      "" 2 true false).1.ref_archive_path = "/custom/my.fa" ∧
    mm2.idx_path = "/data/human.idx" ∧
    mm2.ref_archive_path = "/data/human.fa.gz" ∧
    (gen_clean_cmd
      (gen_clean_cmd mm2 "/in/a.fastq.gz" "/out" (some "/custom/my.fa") false false
        "" 2 true false).1
      "/in/b.fastq.gz" "/out" none false false "" 2 true false).2 =
      Except.ok
        [Stage.align "minimap2 -ax sr -t 2  /custom/my.fa /in/b.fastq.gz",
         Stage.countTap 2304 "/out/b.reads_in.txt",
         Stage.filter 4,
         Stage.countTap 256 "/out/b.reads_out.txt",
         Stage.writeSingle 2 "/out/b.clean.fastq.gz"] := by
  exact ⟨rfl, rfl, rfl, rfl, rfl⟩

end Hostile

namespace Hostile

/-- Witness for C1 at the single-end test vector. -/
theorem C1_filter_predicate_witness :
    singleStages.filter isFilterStage = [Stage.filter 4] ∧
    ∃ p s, renderPipeline singleStages = p ++ renderStage (Stage.filter 4) ++ s :=
  C1_filter_predicate.1 mm2 "/in/sample.fastq.gz" "/out" none false false "" 4
    true false singleStages rfl

/-- Witness for C3 (amended) at the paired-end test vector. -/
theorem C3_output_naming_witness :
    Stage.writePaired 2 "/out/a.clean_1.fastq.gz" "/out/b.clean_2.fastq.gz"
      ∈ pairedStages ∧
    Stage.countTap 2304 "/out/a.reads_in.txt" ∈ pairedStages ∧
    Stage.countTap 256 "/out/a.reads_out.txt" ∈ pairedStages :=
  C3_output_naming mm2 "/in/a.fastq.gz" "/in/b.fastq.gz" "/out" none false false
    "" 2 true "linux" false false pairedStages rfl

/-- Witness for C4 at the paired-end test vectors for both platforms. -/
theorem C4_paired_reorder_policy_witness :
    (pairedStagesDarwin.filter isSortStage = [Stage.sortByName] ∧
      paired_aligner_args "" true "darwin" = "") ∧
    (pairedStagesLinux.filter isSortStage = [] ∧
      paired_aligner_args "" true "linux" = "" ++ " --reorder") :=
  ⟨(C4_paired_reorder_policy mm2 "/in/a.fastq.gz" "/in/b.fastq.gz" "/out" none
      false "" 2 true "darwin" false false pairedStagesDarwin rfl).2.1 rfl,
   (C4_paired_reorder_policy mm2 "/in/a.fastq.gz" "/in/b.fastq.gz" "/out" none
      false "" 2 true "linux" false false pairedStagesLinux rfl).2.2 rfl⟩

/-- Witness for C5: the rename stage of the single-end test vector with
rename=true, the identifier sequences on a concrete five-line stream, and the
header-skip at a concrete header line. -/
theorem C5_rename_numbering_witness :
    singleStagesRenamed.filter isRenameStage = [Stage.renameSingle] ∧
    renameSingleIds ["@hd", "r1", "r2", "r3", "r4"] 0 = List.range' 1 4 ∧
    ((renamePairedIds ["@hd", "r1", "r2", "r3", "r4"] 1)[2 * 0]? = some (0 + 1) ∧
      (renamePairedIds ["@hd", "r1", "r2", "r3", "r4"] 1)[2 * 0 + 1]? = some (0 + 1)) ∧
    (renameSingleIds ("@hd" :: ["r1"]) 1 = renameSingleIds ["r1"] 1 ∧
      renamePairedIds ("@hd" :: ["r1"]) 1 = renamePairedIds ["r1"] 1) :=
  ⟨C5_rename_numbering.1 mm2 "/in/sample.fastq.gz" "/out" none true false "" 4
      true false singleStagesRenamed rfl,
   C5_rename_numbering.2.2.1 ["@hd", "r1", "r2", "r3", "r4"],
   C5_rename_numbering.2.2.2.2.2.1 ["@hd", "r1", "r2", "r3", "r4"] 0 (by decide),
   C5_rename_numbering.2.2.2.2.2.2 "@hd" ["r1"] 1 rfl⟩

/-- Witness for C6 at the single-end test vector. -/
theorem C6_count_taps_witness :
    ∃ c rest, singleStages = Stage.align c ::
        Stage.countTap 2304 "/out/sample.reads_in.txt" ::
        Stage.filter 4 ::
        Stage.countTap 256 "/out/sample.reads_out.txt" :: rest ∧
      rest.filter isCountTapStage = [] :=
  C6_count_taps.1 mm2 "/in/sample.fastq.gz" "/out" none false false "" 4
    true false singleStages rfl

/-- Witness for C7: concrete already-exists failures of both variants. -/
theorem C7_already_exists_guard_witness :
    (gen_clean_cmd mm2 "/in/sample.fastq.gz" "/out" none false false "" 4
      false true).2 =
      Except.error "Output file already exists. Use --force to overwrite" ∧
    (gen_paired_clean_cmd mm2 "/in/a.fastq.gz" "/in/b.fastq.gz" "/out" none
      false false "" 2 false "linux" true false).2 =
      Except.error "Output files already exist. Use --force to overwrite" :=
  ⟨C7_already_exists_guard.1 mm2 "/in/sample.fastq.gz" "/out" none false false
      "" 4 true rfl,
   C7_already_exists_guard.2.1 mm2 "/in/a.fastq.gz" "/in/b.fastq.gz" "/out"
      none false false "" 2 "linux" true false (Or.inl rfl)⟩

/-- Witness for C8: with a custom index the trace is only the version probe,
and a failing probe yields the hard error. -/
theorem C8_check_probe_witness :
    (check mm2 true true true false).1 = [CheckEvent.runCmd "minimap2 --version"] ∧
    (check mm2 true true true false).2 =
      Except.error "Failed to execute minimap2" :=
  ⟨(C8_check_probe mm2 true true true false).1 rfl,
   (C8_check_probe mm2 true true true false).2.2.1 rfl⟩

/-- Witness for C9: a failed call with a custom index leaves the concrete
descriptor untouched, in both variants. -/
theorem C9_failed_call_preserves_descriptor_witness :
    (gen_clean_cmd mm2 "/in/a.fastq.gz" "/out" (some "/custom/my.fa") false
      false "" 2 false true).1 = mm2 ∧
    (gen_paired_clean_cmd mm2 "/in/a.fastq.gz" "/in/b.fastq.gz" "/out"
      (some "/custom/my.fa") false false "" 2 false "linux" true false).1 = mm2 :=
  ⟨(C9_failed_call_preserves_descriptor.1 mm2 "/in/a.fastq.gz" "/out"
      "/custom/my.fa" false false "" 2 true rfl).1,
   C9_failed_call_preserves_descriptor.2 mm2 "/in/a.fastq.gz" "/in/b.fastq.gz"
      "/out" "/custom/my.fa" false false "" 2 "linux" true false (Or.inl rfl)⟩

/-- Witness for C10 at the single-end test vector with reorder=true. -/
theorem C10_single_reorder_unconditional_witness :
    singleStagesSorted.filter isSortStage = [Stage.sortByName] ∧
    ((Stage.sortByName ∈ singleStagesSorted) ↔ true = true) ∧
    singleStagesSorted.head? = some (Stage.align
      "minimap2 -ax sr -t 4  /data/human.fa.gz /in/sample.fastq.gz") :=
  C10_single_reorder_unconditional mm2 "/in/sample.fastq.gz" "/out" none false
    true "" 4 true false singleStagesSorted rfl

end Hostile
